import Mathlib

/-!
Verification of the crawl-navigator decision pipeline.

This file gives a shallow embedding, in Lean 4, of the parts of the
program that the specification's claims talk about:

* `src/src/game_state.py` — `GameStateParser.parse_output` (status-line
  extraction with the health/mana cache) and
  `GameStateParser.find_better_armor`;
* `src/src/decision_engine.py` — `Priority`, `DecisionContext`, `Rule`,
  `DecisionEngine.decide` and `create_default_engine`;
* `src/src/bot.py` — `DCSSBot._calculate_direction_to_enemy`;
* `src/src/state_machines/char_creation_state_machine.py` — the
  character-creation state machine's `update` / `_process_screen` /
  `_trigger_transition` control flow.

Python regular expressions are embedded as executable scanners that
implement the leftmost-match semantics of `re.search` for the concrete
patterns appearing in the source (the patterns are simple enough that
greedy repetition never needs general backtracking: each repetition is
over a character class disjoint from the character that follows it).
Strings are treated as their character lists; ASCII semantics are used
for `\s`, `\d`, `[a-zA-Z]`, `str.lower` and `str.strip`, matching the
terminal text the program processes.
-/

namespace Crawl

/-- Python's `\s` / `str.strip` whitespace characters (ASCII range). -/
def isPySpace (c : Char) : Bool :=
  c = ' ' || c = '\t' || c = '\n' || c = '\r' || c = '\x0b' || c = '\x0c'

/-- Python `str.strip()`. -/
def pyStrip (s : String) : String :=
  ⟨((s.data.dropWhile isPySpace).reverse.dropWhile isPySpace).reverse⟩

/-- Python `str.lower()` (ASCII letters). -/
def pyLower (s : String) : String := ⟨s.data.map Char.toLower⟩

/-- Python's substring test `needle in hay`. -/
def hasSub (needle : List Char) : List Char → Bool
  | [] => needle.isEmpty
  | c :: rest => needle.isPrefixOf (c :: rest) || hasSub needle rest

/-- Drop a literal from the front of the character stream, or fail. -/
def afterLit (lit cs : List Char) : Option (List Char) :=
  if lit.isPrefixOf cs then some (cs.drop lit.length) else none

/-- Numeric value of a run of decimal digits (Python `int(...)`). -/
def natOf (ds : List Char) : Nat :=
  ds.foldl (fun a c => a * 10 + (c.toNat - '0'.toNat)) 0

/-- Run a match attempt at every position, left to right (`re.search`). -/
def scanFor {α : Type} (f : List Char → Option α) : List Char → Option α
  | [] => f []
  | c :: rest =>
    match f (c :: rest) with
    | some r => some r
    | none => scanFor f rest

/-! ### ANSI stripping

`_clean_ansi` (both in `game_state.py` and `bot.py`) is
`re.sub(r'\x1b\[[^\x1b]*?[a-zA-Z]|\x1b\([B0UK]', '', text)`.
The lazy `[^\x1b]*?[a-zA-Z]` consumes non-escape characters up to the
first ASCII letter; an intervening escape character kills the match. -/

/-- Scan the body of a `\x1b[` sequence: count characters until the first
ASCII letter (inclusive); fail on a further escape character or at the
end of the input. `acc` counts the characters already consumed. -/
def ansiScan : List Char → Nat → Option Nat
  | [], _ => none
  | c :: rest, acc =>
    if c.isAlpha then some (acc + 1)
    else if c = '\x1b' then none
    else ansiScan rest (acc + 1)

/-- Length of the ANSI-escape match starting at the head, if any. -/
def ansiLen : List Char → Option Nat
  | '\x1b' :: '[' :: rest => ansiScan rest 2
  | '\x1b' :: '(' :: c :: _ =>
    if c = 'B' || c = '0' || c = 'U' || c = 'K' then some 3 else none
  | _ => none

/-- The `re.sub` of the ANSI pattern with the empty replacement. The fuel
argument (instantiated with the input length, which `ansiLen`'s
positivity makes sufficient) keeps the recursion structural. -/
def cleanAnsiGo : Nat → List Char → List Char
  | 0, cs => cs
  | _ + 1, [] => []
  | fuel + 1, c :: rest =>
    match ansiLen (c :: rest) with
    | some n => cleanAnsiGo fuel (List.drop n (c :: rest))
    | none => c :: cleanAnsiGo fuel rest

/-- Embedding of `_clean_ansi` from the source (same regex in both modules). -/
def cleanAnsi (s : String) : String := ⟨cleanAnsiGo s.data.length s.data⟩

/-- Python's `str.split('\n')`: split at every newline, keeping empty
pieces. -/
def splitNlGo (acc : List Char) : List Char → List String
  | [] => [⟨acc.reverse⟩]
  | c :: rest =>
    if c = '\n' then (⟨acc.reverse⟩ : String) :: splitNlGo [] rest
    else splitNlGo (c :: acc) rest

/-- Embedding of `clean_output.split('\n')`. -/
def splitNl (s : String) : List String := splitNlGo [] s.data

/-! ### Status-line field matchers (`GameStateParser._parse_status_line`) -/

/-- A `:` or whitespace character: the class `[:\s]`. -/
def sepColonSpace (c : Char) : Bool := c = ':' || isPySpace c

/-- Attempt `<lit>[:\s]+(\d+)/(\d+)` at the current position. -/
def pairSepAttempt (lit : List Char) (cs : List Char) : Option (Nat × Nat) :=
  match afterLit lit cs with
  | none => none
  | some r1 =>
    let s := r1.span sepColonSpace
    if s.1 = [] then none else
    let d1 := s.2.span Char.isDigit
    if d1.1 = [] then none else
    match d1.2 with
    | '/' :: r4 =>
      let d2 := r4.span Char.isDigit
      if d2.1 = [] then none else some (natOf d1.1, natOf d2.1)
    | _ => none

/-- Attempt `<lit>\s+(\d+)/(\d+)` at the current position (`Magic`). -/
def pairSpaceAttempt (lit : List Char) (cs : List Char) : Option (Nat × Nat) :=
  match afterLit lit cs with
  | none => none
  | some r1 =>
    let s := r1.span isPySpace
    if s.1 = [] then none else
    let d1 := s.2.span Char.isDigit
    if d1.1 = [] then none else
    match d1.2 with
    | '/' :: r4 =>
      let d2 := r4.span Char.isDigit
      if d2.1 = [] then none else some (natOf d1.1, natOf d2.1)
    | _ => none

/-- Attempt `(\d+)/(\d+)\s+<lit>` at the current position. -/
def slashSuffixAttempt (lit : List Char) (cs : List Char) : Option (Nat × Nat) :=
  let d1 := cs.span Char.isDigit
  if d1.1 = [] then none else
  match d1.2 with
  | '/' :: r =>
    let d2 := r.span Char.isDigit
    if d2.1 = [] then none else
    let w := d2.2.span isPySpace
    if w.1 = [] then none else
    if lit.isPrefixOf w.2 then some (natOf d1.1, natOf d2.1) else none
  | _ => none

/-- The three HP patterns, case-insensitively, first match wins. -/
def hpMatch (l : String) : Option (Nat × Nat) :=
  let cs := (pyLower l).data
  match scanFor (pairSepAttempt "health".data) cs with
  | some r => some r
  | none =>
    match scanFor (pairSepAttempt "hp".data) cs with
    | some r => some r
    | none => scanFor (slashSuffixAttempt "hp".data) cs

/-- The three mana patterns, case-insensitively, first match wins. -/
def manaMatch (l : String) : Option (Nat × Nat) :=
  let cs := (pyLower l).data
  match scanFor (pairSpaceAttempt "magic".data) cs with
  | some r => some r
  | none =>
    match scanFor (pairSepAttempt "mp".data) cs with
    | some r => some r
    | none => scanFor (slashSuffixAttempt "mp".data) cs

/-- Attempt `([A-Za-z]+):(\d+)` at the current position (case-sensitive). -/
def branchAttempt (cs : List Char) : Option (String × Nat) :=
  match cs with
  | [] => none
  | c :: _ =>
    if c.isAlpha then
      let a := cs.span Char.isAlpha
      match a.2 with
      | ':' :: r =>
        let d := r.span Char.isDigit
        if d.1 = [] then none else some (⟨a.1⟩, natOf d.1)
      | _ => none
    else none

/-- Embedding of `re.search(r'([A-Za-z]+):(\d+)', line)`. -/
def branchMatch (l : String) : Option (String × Nat) := scanFor branchAttempt l.data

/-- Attempt `<lit>\s*(\d+)` (optionally requiring a trailing `%`). -/
def keyNumAttempt (lit : List Char) (needPercent : Bool) (cs : List Char) : Option Nat :=
  match afterLit lit cs with
  | none => none
  | some r1 =>
    let w := r1.span isPySpace
    let d := w.2.span Char.isDigit
    if d.1 = [] then none else
    if needPercent then
      match d.2 with
      | '%' :: _ => some (natOf d.1)
      | _ => none
    else some (natOf d.1)

/-- Embedding of `re.search(r'XL:\s*(\d+)', line, re.IGNORECASE)`. -/
def xlMatch (l : String) : Option Nat :=
  scanFor (keyNumAttempt "xl:".data false) (pyLower l).data

/-- Embedding of `re.search(r'Next:\s*(\d+)%', line, re.IGNORECASE)`. -/
def nextMatch (l : String) : Option Nat :=
  scanFor (keyNumAttempt "next:".data true) (pyLower l).data

/-- Embedding of `re.search(r'Gold:\s*(\d+)', line, re.IGNORECASE)`. -/
def goldMatch (l : String) : Option Nat :=
  scanFor (keyNumAttempt "gold:".data false) (pyLower l).data

/-- The ordered hunger keyword list; first substring hit wins. -/
def hungerMatch (l : String) : Option String :=
  ["engorged", "full", "satisfied", "hungry", "very hungry",
   "near starving", "starving"].find? (fun k => hasSub k.data (pyLower l).data)

/-- The `status_indicators` membership test from `_parse_line`. -/
def hasIndicator (l : String) : Bool :=
  ["Health", "HP", "XL:", "Time:", "Depth:", "Dungeon:"].any
    (fun k => hasSub k.data l.data)

/-- Embedding of `line.strip().endswith('.') or line.strip().endswith('?')`. -/
def endsDotQ (l : String) : Bool :=
  match (pyStrip l).data.getLast? with
  | some '.' => true
  | some '?' => true
  | _ => false

/-! ### Data model (`game_state.py`) -/

/-- Player position on the map (`Position`). -/
structure Position where
  x : Int
  y : Int
deriving DecidableEq, Repr

/-- A single inventory item with metadata (`InventoryItem`). -/
structure InventoryItem where
  slot : String
  name : String
  quantity : Nat := 1
  identified : Bool := true
  color : Option String := none
  item_type : String := "unknown"
  ac_value : Int := 0
  is_equipped : Bool := false
  equipment_slot : Option String := none
deriving DecidableEq, Repr

/-- Representation of the current DCSS game state (`GameState`).
Python `dict`s are modelled as insertion-ordered association lists. -/
@[ext] structure GameState where
  position : Option Position := none
  dungeon_branch : String := "Dungeon"
  dungeon_level : Nat := 1
  health : Nat := 0
  max_health : Nat := 0
  mana : Nat := 0
  max_mana : Nat := 0
  gold : Nat := 0
  experience_level : Nat := 1
  experience_progress : Nat := 0
  hunger_level : String := "satisfied"
  status_line : String := ""
  message_line : String := ""
  inventory : List String := []
  visible_map : List String := []
  inventory_items : List (String × InventoryItem) := []
  identified_potions : List (String × String) := []
  untested_potions : List (String × String) := []
  items_on_ground : List (String × Nat) := []
  equipped_items : List (String × InventoryItem) := []
  current_ac : Int := 10
deriving DecidableEq, Repr

/-- The mutable fields of `GameStateParser`. -/
@[ext] structure ParserState where
  state : GameState
  last_health : Nat × Nat
  last_mana : Nat × Nat
  last_screen_output : String
deriving DecidableEq, Repr

/-- Embedding of `GameStateParser.__init__`: defaults for a new character. -/
def initParser : ParserState :=
  { state := { health := 10, max_health := 10, mana := 0, max_mana := 0 }
    last_health := (10, 10)
    last_mana := (0, 0)
    last_screen_output := "" }

/-- Embedding of `GameStateParser._parse_status_line`. Each field pattern is applied
to the line; only matched categories are updated. The method ends by
recording the line as the status line. -/
def parseStatusLine (st : GameState) (l : String) : GameState :=
  let st :=
    match branchMatch l with
    | some bn => { st with dungeon_branch := bn.1, dungeon_level := bn.2 }
    | none => st
  let st :=
    match hpMatch l with
    | some hm => { st with health := hm.1, max_health := hm.2 }
    | none => st
  let st :=
    match manaMatch l with
    | some hm => { st with mana := hm.1, max_mana := hm.2 }
    | none => st
  let st :=
    match xlMatch l with
    | some x => { st with experience_level := x }
    | none => st
  let st :=
    match nextMatch l with
    | some p => { st with experience_progress := p }
    | none => st
  let st :=
    match goldMatch l with
    | some g => { st with gold := g }
    | none => st
  let st :=
    match hungerMatch l with
    | some h => { st with hunger_level := h }
    | none => st
  { st with status_line := l }

/-- Embedding of `GameStateParser._parse_line` (the line is already stripped by the
caller). Returns the updated state and whether the line contained
status information. -/
def parseLine (st : GameState) (l : String) : GameState × Bool :=
  if l = "" ∨ (pyStrip l).length < 2 then (st, false)
  else if hasIndicator l then (parseStatusLine st l, true)
  else if endsDotQ l then ({ st with message_line := pyStrip l }, false)
  else (st, false)

/-- The per-line loop of `parse_output`: blank lines are skipped, other
lines are stripped and parsed, and the found-status flag accumulates. -/
def foldLines (st : GameState) (found : Bool) : List String → GameState × Bool
  | [] => (st, found)
  | l :: ls =>
    if pyStrip l ≠ "" then
      let r := parseLine st (pyStrip l)
      foldLines r.1 (r.2 || found) ls
    else foldLines st found ls

/-- Embedding of `GameStateParser.parse_output`. After the per-line loop the health
and mana caches are refreshed from the state when the values are
positive; when no status line was seen this turn, health and mana are
restored from the (possibly refreshed) caches. The `if self.last_health:`
guards in the source always succeed — the caches are non-empty tuples,
which are truthy in Python regardless of their contents. -/
def parse_output (σ : ParserState) (output : String) : ParserState :=
  if output = "" then σ
  else
    let clean := cleanAnsi output
    let r := foldLines σ.state false (splitNl clean)
    let st := r.1
    let found := r.2
    let lh := if 0 < st.health ∧ 0 < st.max_health then (st.health, st.max_health)
              else σ.last_health
    let lm := if 0 ≤ st.mana ∧ 0 < st.max_mana then (st.mana, st.max_mana)
              else σ.last_mana
    let st' := if found then st
               else { st with health := lh.1, max_health := lh.2,
                              mana := lm.1, max_mana := lm.2 }
    { state := st', last_health := lh, last_mana := lm, last_screen_output := clean }

/-! ### Better-armor search (`GameStateParser.find_better_armor`) -/

/-- Stable insertion of an element into a list already sorted in
descending order of the first component; on ties the inserted element —
which comes earlier in the original order — stays first. This models
Python's stable `list.sort(reverse=True, key=lambda x: x[0])`. -/
def insertDesc {β : Type} (x : Int × β) : List (Int × β) → List (Int × β)
  | [] => [x]
  | y :: ys => if y.1 ≤ x.1 then x :: y :: ys else y :: insertDesc x ys

/-- Stable sort, descending by the first component. -/
def sortDesc {β : Type} : List (Int × β) → List (Int × β)
  | [] => []
  | x :: xs => insertDesc x (sortDesc xs)

/-- The body of the `for slot, item in ...inventory_items.items()` loop
of `find_better_armor`: the entry this iteration appends to
`better_items`, if any. The improvement is `current.ac_value -
item.ac_value` against an equipped item, `abs(item.ac_value)` for an
empty slot; only items with `ac_value < 0` are considered at all. -/
def armorCandidate (st : GameState) (slot : String) (item : InventoryItem) :
    Option (Int × String × InventoryItem) :=
  if item.item_type ≠ "armor" ∨ item.equipment_slot = none then none
  else if item.is_equipped then none
  else if item.ac_value < 0 then
    match item.equipment_slot with
    | some es =>
      match st.equipped_items.lookup es with
      | some cur =>
        if item.ac_value < cur.ac_value then
          some (cur.ac_value - item.ac_value, slot, item)
        else none
      | none => some (|item.ac_value|, slot, item)
    | none => none
  else none

/-- Embedding of `GameStateParser.find_better_armor`: build `better_items`, sort it
by improvement (most improvement first, stable), and return the
slot/item of the first entry; `None` when the list is empty. -/
def find_better_armor (st : GameState) : Option (String × InventoryItem) :=
  let better_items := st.inventory_items.foldl
    (fun acc p =>
      match armorCandidate st p.1 p.2 with
      | some e => acc ++ [e]
      | none => acc) []
  match sortDesc better_items with
  | [] => none
  | e :: _ => some (e.2.1, e.2.2)

/-! ### Decision engine (`decision_engine.py`) -/

/-- Priority levels for decision rules (`Priority`); lower value means
evaluated first. -/
inductive Priority where
  | CRITICAL
  | URGENT
  | HIGH
  | NORMAL
  | LOW
deriving DecidableEq, Repr

/-- The numeric `value` of each `Priority` member. -/
def Priority.val : Priority → Nat
  | .CRITICAL => 1
  | .URGENT => 5
  | .HIGH => 10
  | .NORMAL => 20
  | .LOW => 30

/-- Game state context for decision evaluation (`DecisionContext`). -/
structure DecisionContext where
  output : String
  health : Int
  max_health : Int
  level : Int
  dungeon_level : Int
  enemy_detected : Bool
  enemy_name : String
  items_on_ground : Bool
  in_shop : Bool
  in_inventory_screen : Bool
  in_item_pickup_menu : Bool
  in_menu : Bool
  equip_slot_pending : Bool
  quaff_slot_pending : Bool
  has_level_up : Bool
  has_more_prompt : Bool
  attribute_increase_prompt : Bool
  save_game_prompt : Bool
  last_action_sent : String
  last_level_up_processed : Int
  last_attribute_increase_level : Int
  last_equipment_check : Int
  last_inventory_refresh : Int
  move_count : Int
  has_gameplay_indicators : Bool
  gameplay_started : Bool
  goto_state : Option String
  goto_target_level : Int
deriving DecidableEq, Repr

/-- Embedding of `DecisionContext.health_percentage`: 100 when `max_health <= 0`,
otherwise `health / max_health * 100`. Python computes this in floating
point; it is embedded as the exact rational. -/
def healthPercentage (ctx : DecisionContext) : ℚ :=
  if ctx.max_health ≤ 0 then 100
  else ((ctx.health : ℚ) / (ctx.max_health : ℚ)) * 100

/-- Render a percentage roughly as Python's `f"{x:.1f}"` does (one
decimal digit; Python rounds the underlying double, which this rational
rounding approximates). Used only inside reason strings. -/
def fmtPct (q : ℚ) : String :=
  let t : Int := round (q * 10)
  toString (t / 10) ++ "." ++ toString (t % 10)

/-- A single decision rule (`Rule`). Conditions and actions are Python
callables that may raise; a raising call is modelled as `Except.error`.
All rules installed by `create_default_engine` are total and never
raise, so their embeddings always return `Except.ok`. -/
structure Rule where
  name : String
  priority : Priority
  condition : DecisionContext → Except String Bool
  action : DecisionContext → Except String (String × String)

/-- Stable insertion by ascending `priority.value` (ties keep the
earlier-inserted rule first), modelling Python's stable `sorted`. -/
def insertRule (r : Rule) : List Rule → List Rule
  | [] => [r]
  | x :: xs => if r.priority.val ≤ x.priority.val then r :: x :: xs
               else x :: insertRule r xs

/-- Embedding of `sorted(self.rules, key=lambda r: r.priority.value)`. -/
def sortRules : List Rule → List Rule
  | [] => []
  | x :: xs => insertRule x (sortRules xs)

/-- The rule loop of `DecisionEngine.decide`: first rule whose condition
returns true supplies the action result; a rule whose condition or
action raises is skipped and evaluation continues. -/
def decideLoop (ctx : DecisionContext) : List Rule → Option String × String
  | [] => (none, "No matching rules")
  | r :: rest =>
    match r.condition ctx with
    | .error _ => decideLoop ctx rest
    | .ok false => decideLoop ctx rest
    | .ok true =>
      match r.action ctx with
      | .error _ => decideLoop ctx rest
      | .ok cr => (some cr.1, cr.2)

/-- Embedding of `DecisionEngine.decide` for an engine holding the given rules. -/
def engineDecide (rules : List Rule) (ctx : DecisionContext) : Option String × String :=
  decideLoop ctx (sortRules rules)

/-! The rules installed by `create_default_engine`, in insertion order. -/

/-- Rule "Equip slot prompt" (CRITICAL). -/
def ruleEquipSlot : Rule :=
  { name := "Equip slot prompt", priority := .CRITICAL
    condition := fun ctx => .ok ctx.equip_slot_pending
    action := fun _ => .ok ("", "") }

/-- Rule "Quaff slot prompt" (CRITICAL). -/
def ruleQuaffSlot : Rule :=
  { name := "Quaff slot prompt", priority := .CRITICAL
    condition := fun ctx => .ok ctx.quaff_slot_pending
    action := fun _ => .ok ("", "") }

/-- Rule "Attribute increase prompt" (CRITICAL). -/
def ruleAttributeIncrease : Rule :=
  { name := "Attribute increase prompt", priority := .CRITICAL
    condition := fun ctx =>
      .ok (ctx.attribute_increase_prompt &&
           decide (ctx.last_attribute_increase_level < ctx.level))
    action := fun _ => .ok ("S", "Level-up: Increasing Strength") }

/-- Rule "Save game prompt" (CRITICAL). -/
def ruleSaveGame : Rule :=
  { name := "Save game prompt", priority := .CRITICAL
    condition := fun ctx => .ok ctx.save_game_prompt
    action := fun _ => .ok ("n", "Rejecting save prompt - continuing gameplay") }

/-- Rule "More prompt" (CRITICAL). -/
def ruleMorePrompt : Rule :=
  { name := "More prompt", priority := .CRITICAL
    condition := fun ctx => .ok ctx.has_more_prompt
    action := fun _ => .ok (" ", "Dismissing --more-- prompt") }

/-- Rule "Screen redraw (health unreadable)" (CRITICAL). -/
def ruleScreenRedraw : Rule :=
  { name := "Screen redraw (health unreadable)", priority := .CRITICAL
    condition := fun ctx => .ok (ctx.health == 0 && ctx.max_health == 0)
    action := fun _ => .ok ("\x12", "Requesting screen redraw (health display missing)") }

/-- Rule "Shop detected" (HIGH). -/
def ruleShopDetected : Rule :=
  { name := "Shop detected", priority := .HIGH
    condition := fun ctx => .ok ctx.in_shop
    action := fun _ => .ok ("\x1b", "Exiting shop (not buying)") }

/-- Rule "Item pickup menu" (HIGH). -/
def ruleItemPickupMenu : Rule :=
  { name := "Item pickup menu", priority := .HIGH
    condition := fun ctx => .ok ctx.in_item_pickup_menu
    action := fun _ => .ok ("", "") }

/-- Rule "Inventory screen" (HIGH). -/
def ruleInventoryScreen : Rule :=
  { name := "Inventory screen", priority := .HIGH
    condition := fun ctx => .ok ctx.in_inventory_screen
    action := fun _ => .ok ("", "") }

/-- Rule "In menu" (HIGH). -/
def ruleInMenu : Rule :=
  { name := "In menu", priority := .HIGH
    condition := fun ctx => .ok ctx.in_menu
    action := fun _ => .ok (".", "Waiting in menu") }

/-- Rule "Level-up with more prompt" (URGENT). -/
def ruleLevelUpMore : Rule :=
  { name := "Level-up with more prompt", priority := .URGENT
    condition := fun ctx =>
      .ok (ctx.has_level_up && ctx.has_more_prompt &&
           decide (ctx.last_level_up_processed < ctx.level))
    action := fun _ => .ok (" ", "Dismissing level-up --more-- prompt") }

/-- Rule "Level-up" (URGENT). -/
def ruleLevelUp : Rule :=
  { name := "Level-up", priority := .URGENT
    condition := fun ctx =>
      .ok (ctx.has_level_up && decide (ctx.last_level_up_processed < ctx.level))
    action := fun _ => .ok (".", "Level-up processed") }

/-- Rule "Items on ground" (URGENT). -/
def ruleItemsOnGround : Rule :=
  { name := "Items on ground", priority := .URGENT
    condition := fun ctx => .ok ctx.items_on_ground
    action := fun _ => .ok ("g", "Grabbing items from ground") }

/-- Rule "Better armor available" (URGENT; condition is constantly false,
the caller checks this with its own frequency control). -/
def ruleBetterArmor : Rule :=
  { name := "Better armor available", priority := .URGENT
    condition := fun _ => .ok false
    action := fun _ => .ok ("", "") }

/-- Rule "Untested potions" (URGENT; condition is constantly false). -/
def ruleUntestedPotions : Rule :=
  { name := "Untested potions", priority := .URGENT
    condition := fun _ => .ok false
    action := fun _ => .ok ("", "") }

/-- Rule "Combat (low health - move to engage)" (NORMAL): move right (`l`)
as default direction; the source notes direction calculation is to be
added later. -/
def ruleCombatLowHealth : Rule :=
  { name := "Combat (low health - move to engage)", priority := .NORMAL
    condition := fun ctx => .ok (ctx.enemy_detected && decide (healthPercentage ctx ≤ 70))
    action := fun ctx =>
      .ok ("l", "Moving toward " ++ ctx.enemy_name ++ " to engage (low health: " ++
           fmtPct (healthPercentage ctx) ++ "%)") }

/-- Rule "Combat (autofight)" (NORMAL). -/
def ruleCombatAutofight : Rule :=
  { name := "Combat (autofight)", priority := .NORMAL
    condition := fun ctx => .ok (ctx.enemy_detected && decide (70 < healthPercentage ctx))
    action := fun ctx => .ok ("\t", "Autofight - " ++ ctx.enemy_name ++ " in range") }

/-- Rule "Goto location type" (NORMAL). -/
def ruleGotoLocationType : Rule :=
  { name := "Goto location type", priority := .NORMAL
    condition := fun ctx => .ok (ctx.goto_state == some "awaiting_location_type")
    action := fun _ => .ok ("D", "Selecting Dungeon from goto location menu") }

/-- Rule "Goto level number" (NORMAL). -/
def ruleGotoLevelNumber : Rule :=
  { name := "Goto level number", priority := .NORMAL
    condition := fun ctx => .ok (ctx.goto_state == some "awaiting_level_number")
    action := fun ctx =>
      .ok (toString ctx.goto_target_level,
           "Descending to dungeon level " ++ toString ctx.goto_target_level) }

/-- Rule "Rest after autofight" (NORMAL). -/
def ruleRestAfterAutofight : Rule :=
  { name := "Rest after autofight", priority := .NORMAL
    condition := fun ctx => .ok (ctx.last_action_sent == "\t" && !ctx.enemy_detected)
    action := fun _ => .ok (".", "Waiting after autofight") }

/-- Rule "Explore (good health)" (NORMAL). -/
def ruleExploreGoodHealth : Rule :=
  { name := "Explore (good health)", priority := .NORMAL
    condition := fun ctx =>
      .ok (ctx.has_gameplay_indicators && decide (60 ≤ healthPercentage ctx))
    action := fun ctx =>
      .ok ("o", "Auto-explore (health: " ++ fmtPct (healthPercentage ctx) ++ "%)") }

/-- Rule "Rest to recover" (NORMAL). -/
def ruleRestToRecover : Rule :=
  { name := "Rest to recover", priority := .NORMAL
    condition := fun ctx =>
      .ok (ctx.has_gameplay_indicators && decide (healthPercentage ctx < 60))
    action := fun ctx =>
      .ok ("5", "Resting to recover (health: " ++ fmtPct (healthPercentage ctx) ++ "%)") }

/-- Rule "Explore (game not ready)" (LOW). -/
def ruleExploreNotReady : Rule :=
  { name := "Explore (game not ready)", priority := .LOW
    condition := fun ctx => .ok ctx.has_gameplay_indicators
    action := fun _ => .ok ("o", "Auto-explore") }

/-- Rule "Waiting for gameplay" (LOW). -/
def ruleWaitingForGameplay : Rule :=
  { name := "Waiting for gameplay", priority := .LOW
    condition := fun ctx => .ok (!ctx.gameplay_started)
    action := fun _ => .ok ("o", "Auto-explore (waiting for gameplay to start)") }

/-- Rule "Fallback exploration" (LOW; condition always true). -/
def ruleFallbackExploration : Rule :=
  { name := "Fallback exploration", priority := .LOW
    condition := fun _ => .ok true
    action := fun _ => .ok ("o", "Auto-explore (fallback)") }

/-- Embedding of `create_default_engine`: the engine's rules in insertion order. -/
def createDefaultEngine : List Rule :=
  [ruleEquipSlot, ruleQuaffSlot, ruleAttributeIncrease, ruleSaveGame,
   ruleMorePrompt, ruleScreenRedraw,
   ruleShopDetected, ruleItemPickupMenu, ruleInventoryScreen, ruleInMenu,
   ruleLevelUpMore, ruleLevelUp, ruleItemsOnGround, ruleBetterArmor,
   ruleUntestedPotions,
   ruleCombatLowHealth, ruleCombatAutofight, ruleGotoLocationType,
   ruleGotoLevelNumber, ruleRestAfterAutofight, ruleExploreGoodHealth,
   ruleRestToRecover,
   ruleExploreNotReady, ruleWaitingForGameplay, ruleFallbackExploration]

/-- Embedding of `decide` on the default engine. -/
def decideDefault (ctx : DecisionContext) : Option String × String :=
  engineDecide createDefaultEngine ctx

/-! ### Direction to enemy (`DCSSBot._calculate_direction_to_enemy`) -/

/-- After the three mandatory whitespace characters of `\s{3,}`:
either the (escaped) name starts here, or one more whitespace character
is consumed. This is the backtracking closure of the greedy repetition. -/
def nameAfterPad (name : List Char) : List Char → Bool
  | [] => name.isEmpty
  | c :: rest => name.isPrefixOf (c :: rest) || (isPySpace c && nameAfterPad name rest)

/-- Embedding of `re.search(r'^([a-zA-Z])\s{3,}' + re.escape(enemy_name), line)`:
a leading letter, at least three whitespace characters, then the name.
Returns the leading letter (the enemy's map symbol). -/
def anchoredSym (name : List Char) (line : List Char) : Option Char :=
  match line with
  | c :: a :: b :: d :: rest =>
    if c.isAlpha && isPySpace a && isPySpace b && isPySpace d && nameAfterPad name rest
    then some c else none
  | _ => none

/-- Position of the last line (among the given ones) containing the
target character, with the column of its first occurrence there —
the loop in the source overwrites the position on every hit. -/
def findLastPos (target : Char) (lines : List String) : Option (Nat × Nat) :=
  lines.enum.foldl
    (fun acc p =>
      match List.indexOf? target p.2.data with
      | some col => some (p.1, col)
      | none => acc) none

/-- Embedding of `DCSSBot._calculate_direction_to_enemy`: find the enemy's map
symbol from the monsters-list line, locate `@` and the symbol on the
first 21 lines, and pick a movement key from the row/column deltas. -/
def calculateDirectionToEnemy (output enemy_name : String) : Option Char :=
  if output = "" || enemy_name = "" then none
  else
    let lines := splitNl (cleanAnsi output)
    match lines.findSome?
        (fun line =>
          if hasSub enemy_name.data line.data then anchoredSym enemy_name.data line.data
          else none) with
    | none => none
    | some sym =>
      let mapLines := lines.take 21
      match findLastPos '@' mapLines, findLastPos sym mapLines with
      | some pp, some ep =>
        let row_diff : Int := (ep.1 : Int) - (pp.1 : Int)
        let col_diff : Int := (ep.2 : Int) - (pp.2 : Int)
        if |col_diff| < |row_diff| then
          some (if 0 < row_diff then 'j' else 'k')
        else if |row_diff| < |col_diff| then
          some (if 0 < col_diff then 'l' else 'h')
        else
          if 0 < row_diff then some (if 0 < col_diff then 'n' else 'b')
          else some (if 0 < col_diff then 'u' else 'y')
      | _, _ => none

/-! ### Character-creation flow (`char_creation_state_machine.py`) -/

/-- The states of the character-creation machine. -/
inductive CCState where
  | startup
  | species
  | classSelect
  | background
  | skills
  | abilities
  | difficulty
  | confirmation
  | gameplay
  | error
deriving DecidableEq, Repr

/-- The `id` of each state (python-statemachine derives it from the
attribute name). -/
def ccId : CCState → String
  | .startup => "startup"
  | .species => "species"
  | .classSelect => "class_select"
  | .background => "background"
  | .skills => "skills"
  | .abilities => "abilities"
  | .difficulty => "difficulty"
  | .confirmation => "confirmation"
  | .gameplay => "gameplay"
  | .error => "error"

/-- The mutable fields of `CharacterCreationStateMachine`. -/
structure CCMachine where
  current : CCState
  screen_text : String
  stuck_count : Nat
  max_stuck_threshold : Nat
  last_state : Option CCState
  state_history : List String
deriving DecidableEq, Repr

/-- Embedding of `CharacterCreationStateMachine.__init__`. -/
def initCCMachine : CCMachine :=
  { current := .startup, screen_text := "", stuck_count := 0,
    max_stuck_threshold := 3, last_state := none, state_history := ["start"] }

/-- Iteration order of `transition_patterns` (Python dicts preserve
insertion order): most specific first, generic startup patterns last. -/
def ccTargets : List CCState :=
  [.gameplay, .species, .classSelect, .background, .skills, .abilities,
   .difficulty, .startup]

/-- Embedding of `CharacterCreationStateMachine._trigger_transition`: the successor
state for a detected target, given the current state; combinations
without a declared transition leave the state unchanged. -/
def triggerTransition (cur target : CCState) : CCState :=
  match target with
  | .startup => cur
  | .species => if cur = .startup then .species else cur
  | .classSelect => if cur = .species then .classSelect else cur
  | .background =>
    if cur = .species ∨ cur = .classSelect then .background else cur
  | .skills =>
    if cur = .classSelect ∨ cur = .background then .skills else cur
  | .abilities =>
    if cur = .background ∨ cur = .skills then .abilities else cur
  | .difficulty =>
    if cur = .background ∨ cur = .skills ∨ cur = .abilities then .difficulty else cur
  | .gameplay =>
    if cur = .species ∨ cur = .classSelect ∨ cur = .background ∨ cur = .skills ∨
       cur = .abilities ∨ cur = .difficulty ∨ cur = .confirmation
    then .gameplay else cur
  | _ => cur

/-- Embedding of `CharacterCreationStateMachine._process_screen`, parameterised by
the compiled pattern table `matcher` (`MenuTransitionPattern.matches`
for each target state): once in gameplay, return immediately without
considering any pattern; otherwise trigger the transition for the
first matching target. -/
def processScreen (matcher : CCState → String → Bool) (cur : CCState)
    (text : String) : CCState :=
  if cur = .gameplay then cur
  else
    match ccTargets.find? (fun t => matcher t text) with
    | some t => triggerTransition cur t
    | none => cur

/-- Embedding of `CharacterCreationStateMachine.update`. -/
def ccUpdate (matcher : CCState → String → Bool) (m : CCMachine)
    (screen_text : String) : CCMachine :=
  let text := pyLower screen_text
  let stuck := if m.last_state = some m.current then m.stuck_count + 1 else 0
  let newCur := processScreen matcher m.current text
  let hist := if m.current ≠ newCur then m.state_history ++ [ccId newCur]
              else m.state_history
  { current := newCur, screen_text := text, stuck_count := stuck,
    max_stuck_threshold := m.max_stuck_threshold,
    last_state := some newCur, state_history := hist }

/-! ### Reference definitions for the better-armor search -/

/-- Modelled from the spec: `findBetterArmor`'s improvement ordering,
where `none` stands for the "infinitely improvable" empty slot and
`some d` for a finite positive improvement `d`. `specImprovesGt a b`
holds when improvement `a` is strictly larger than improvement `b`. -/
def specImprovesGt : Option Int → Option Int → Bool
  | none, none => false
  | none, some _ => true
  | some _, none => false
  | some a, some b => decide (b < a)

/-- First-encountered maximum under the spec's improvement ordering. -/
def amfInf {β : Type} : List (Option Int × β) → Option (Option Int × β)
  | [] => none
  | x :: xs =>
    match amfInf xs with
    | none => some x
    | some b => if specImprovesGt b.1 x.1 then some b else some x

/-- Modelled from the spec: the better-armor search as §4.2 words it —
for each armor item not currently equipped, compare its armor-class
value against the currently equipped item in the same equipment slot
(an empty slot being infinitely improvable); pick the candidate with
the largest improvement, ties broken by the first-encountered slot
letter; none when no candidate improves AC. -/
def findBetterArmorSpec (st : GameState) : Option (String × InventoryItem) :=
  let candidates := st.inventory_items.filterMap (fun p =>
    let item := p.2
    if item.item_type = "armor" ∧ item.equipment_slot ≠ none ∧ item.is_equipped = false
    then
      match item.equipment_slot with
      | some es =>
        match st.equipped_items.lookup es with
        | some cur =>
          if 0 < cur.ac_value - item.ac_value then
            some ((some (cur.ac_value - item.ac_value) : Option Int), p.1, item)
          else none
        | none => some ((none : Option Int), p.1, item)
      | none => none
    else none)
  match amfInf candidates with
  | none => none
  | some e => some (e.2.1, e.2.2)

/-- First-encountered maximum of the first components: the element a
stable descending sort puts first. -/
def amf {β : Type} : List (Int × β) → Option (Int × β)
  | [] => none
  | x :: xs =>
    match amf xs with
    | none => some x
    | some b => if x.1 < b.1 then some b else some x

/-- The corrected reference formulation of `find_better_armor`: the
first-encountered candidate of maximal improvement among the entries
produced by `armorCandidate` (armor items with an equipment slot, not
equipped, with strictly negative `ac_value`, improving on the equipped
item of their slot or filling an empty slot). -/
def findBetterArmorAmended (st : GameState) : Option (String × InventoryItem) :=
  match amf (st.inventory_items.filterMap (fun p => armorCandidate st p.1 p.2)) with
  | none => none
  | some e => some (e.2.1, e.2.2)

/-! ### A normal form for the per-line parser

Every line-level update of `parse_output` overwrites some fields of the
`GameState` with values computed from the line alone and passes the
other fields through. The `Writes` record captures exactly which fields
a line (or a list of lines) overwrites; this normal form drives the
idempotence and invariant proofs below. -/

/-- The field overwrites performed by parsing some lines. -/
@[ext] structure Writes where
  branch : Option (String × Nat) := none
  health : Option (Nat × Nat) := none
  mana : Option (Nat × Nat) := none
  xl : Option Nat := none
  nextp : Option Nat := none
  gold : Option Nat := none
  hunger : Option String := none
  statusl : Option String := none
  messagel : Option String := none
  found : Bool := false
deriving DecidableEq, Repr

/-- Apply a set of overwrites to a state. -/
def applyW (w : Writes) (st : GameState) : GameState :=
  { st with
    dungeon_branch := (w.branch.map Prod.fst).getD st.dungeon_branch
    dungeon_level := (w.branch.map Prod.snd).getD st.dungeon_level
    health := (w.health.map Prod.fst).getD st.health
    max_health := (w.health.map Prod.snd).getD st.max_health
    mana := (w.mana.map Prod.fst).getD st.mana
    max_mana := (w.mana.map Prod.snd).getD st.max_mana
    experience_level := w.xl.getD st.experience_level
    experience_progress := w.nextp.getD st.experience_progress
    gold := w.gold.getD st.gold
    hunger_level := w.hunger.getD st.hunger_level
    status_line := w.statusl.getD st.status_line
    message_line := w.messagel.getD st.message_line }

/-- Sequencing of overwrites; the second argument is applied later and
wins where both write. -/
def mergeW (w1 w2 : Writes) : Writes :=
  { branch := w2.branch <|> w1.branch
    health := w2.health <|> w1.health
    mana := w2.mana <|> w1.mana
    xl := w2.xl <|> w1.xl
    nextp := w2.nextp <|> w1.nextp
    gold := w2.gold <|> w1.gold
    hunger := w2.hunger <|> w1.hunger
    statusl := w2.statusl <|> w1.statusl
    messagel := w2.messagel <|> w1.messagel
    found := w1.found || w2.found }

/-- The overwrites performed by `_parse_line` on a stripped line. -/
def lineWrites (l : String) : Writes :=
  if l = "" ∨ (pyStrip l).length < 2 then {}
  else if hasIndicator l then
    { branch := branchMatch l, health := hpMatch l, mana := manaMatch l,
      xl := xlMatch l, nextp := nextMatch l, gold := goldMatch l,
      hunger := hungerMatch l, statusl := some l, found := true }
  else if endsDotQ l then { messagel := some (pyStrip l) }
  else {}

/-- The overwrites of one raw (unstripped) line of the loop. -/
def lineWritesOuter (l : String) : Writes :=
  if pyStrip l ≠ "" then lineWrites (pyStrip l) else {}

/-- The combined overwrites of a list of raw lines. -/
def combineW : List String → Writes
  | [] => {}
  | l :: ls => mergeW (lineWritesOuter l) (combineW ls)

/-- The cache-and-restore tail of `parse_output`, applied to the
combined overwrites of the snapshot's lines. -/
def nfStep (w : Writes) (clean : String) (σ : ParserState) : ParserState :=
  let st := applyW w σ.state
  let lh := if 0 < st.health ∧ 0 < st.max_health then (st.health, st.max_health)
            else σ.last_health
  let lm := if 0 ≤ st.mana ∧ 0 < st.max_mana then (st.mana, st.max_mana)
            else σ.last_mana
  let st' := if w.found then st
             else { st with health := lh.1, max_health := lh.2,
                            mana := lm.1, max_mana := lm.2 }
  ⟨st', lh, lm, clean⟩

/-- The health pair found on a line, if any, is consistent. -/
def hpOk (l : String) : Bool :=
  match hpMatch (pyStrip l) with
  | some hm => decide (hm.1 ≤ hm.2)
  | none => true

/-- The experience-progress value found on a line, if any, is a
percentage. -/
def nextOk (l : String) : Bool :=
  match nextMatch (pyStrip l) with
  | some p => decide (p ≤ 100)
  | none => true

/-! ### Concrete inputs used by witnesses and counterexamples -/

/-- A quiet gameplay context: healthy, no prompts, no enemy. -/
def ctxBase : DecisionContext :=
  { output := "", health := 80, max_health := 100, level := 1, dungeon_level := 1,
    enemy_detected := false, enemy_name := "", items_on_ground := false,
    in_shop := false, in_inventory_screen := false, in_item_pickup_menu := false,
    in_menu := false, equip_slot_pending := false, quaff_slot_pending := false,
    has_level_up := false, has_more_prompt := false,
    attribute_increase_prompt := false, save_game_prompt := false,
    last_action_sent := "", last_level_up_processed := 0,
    last_attribute_increase_level := 0, last_equipment_check := 0,
    last_inventory_refresh := 0, move_count := 0,
    has_gameplay_indicators := true, gameplay_started := true,
    goto_state := none, goto_target_level := 0 }

/-- Inside a shop with items on the ground. -/
def ctxShopItems : DecisionContext :=
  { ctxBase with in_shop := true, items_on_ground := true }

/-- Low health (50%), enemy detected, snapshot with the enemy one row
above the player. -/
def ctxLowCombat : DecisionContext :=
  { ctxBase with enemy_detected := true, enemy_name := "rat", health := 50,
                 output := "r   rat\n@" }

/-- High health (80%), enemy detected. -/
def ctxHighCombat : DecisionContext :=
  { ctxBase with enemy_detected := true, enemy_name := "rat" }

/-- A "more" prompt while an enemy is detected. -/
def ctxMoreEnemy : DecisionContext :=
  { ctxBase with has_more_prompt := true, enemy_detected := true,
                 enemy_name := "rat" }

/-- Awaiting the goto location-type prompt. -/
def ctxGotoLoc : DecisionContext :=
  { ctxBase with goto_state := some "awaiting_location_type", goto_target_level := 2 }

/-- Awaiting the goto level-number prompt. -/
def ctxGotoNum : DecisionContext :=
  { ctxBase with goto_state := some "awaiting_level_number", goto_target_level := 5 }

/-- An unequipped body-armor item with `ac_value = 0` (no enchantment
bonus parsed). -/
def itemPlainRobe : InventoryItem :=
  { slot := "a", name := "+0 robe", item_type := "armor", ac_value := 0,
    equipment_slot := some "body" }

/-- Inventory holding only `itemPlainRobe`; nothing equipped. -/
def stPlainRobe : GameState := { inventory_items := [("a", itemPlainRobe)] }

/-! ## Theorems -/

theorem ansiScan_pos {cs : List Char} {acc n : Nat} (h : ansiScan cs acc = some n) :
    acc + 1 ≤ n := by
  induction cs generalizing acc with
  | nil => simp [ansiScan] at h
  | cons c rest ih =>
    simp only [ansiScan] at h
    split at h
    · cases h; omega
    · split at h
      · cases h
      · have := ih h; omega

theorem ansiLen_pos {cs : List Char} {n : Nat} (h : ansiLen cs = some n) : 1 ≤ n := by
  unfold ansiLen at h
  split at h
  · have := ansiScan_pos h; omega
  · split at h
    · cases h; omega
    · cases h
  · cases h

theorem cleanAnsiGo_congr : ∀ (f1 f2 : Nat) (cs : List Char),
    cs.length ≤ f1 → cs.length ≤ f2 → cleanAnsiGo f1 cs = cleanAnsiGo f2 cs := by
  intro f1
  induction f1 with
  | zero =>
    intro f2 cs h1 _
    have : cs = [] := List.eq_nil_of_length_eq_zero (Nat.le_zero.mp h1)
    subst this
    cases f2 <;> rfl
  | succ f1 ih =>
    intro f2 cs h1 h2
    cases cs with
    | nil => cases f2 <;> rfl
    | cons c rest =>
      cases f2 with
      | zero => simp at h2
      | succ f2 =>
        show (match ansiLen (c :: rest) with
              | some n => cleanAnsiGo f1 (List.drop n (c :: rest))
              | none => c :: cleanAnsiGo f1 rest) =
             (match ansiLen (c :: rest) with
              | some n => cleanAnsiGo f2 (List.drop n (c :: rest))
              | none => c :: cleanAnsiGo f2 rest)
        cases hl : ansiLen (c :: rest) with
        | some n =>
          have hn := ansiLen_pos hl
          have hlen : (List.drop n (c :: rest)).length ≤ f1 := by
            simp only [List.length_drop, List.length_cons]
            simp only [List.length_cons] at h1
            omega
          have hlen2 : (List.drop n (c :: rest)).length ≤ f2 := by
            simp only [List.length_drop, List.length_cons]
            simp only [List.length_cons] at h2
            omega
          simp only [ih f2 _ hlen hlen2]
        | none =>
          have hlen : rest.length ≤ f1 := by
            simp only [List.length_cons] at h1; omega
          have hlen2 : rest.length ≤ f2 := by
            simp only [List.length_cons] at h2; omega
          simp only [ih f2 _ hlen hlen2]

/-- The stable sort puts the default rules into band order: CRITICAL,
URGENT, HIGH, NORMAL, LOW — note `URGENT.value = 5 < 10 = HIGH.value`,
so the URGENT band is evaluated *before* the HIGH band. -/
theorem sortRules_default :
    sortRules createDefaultEngine =
    [ruleEquipSlot, ruleQuaffSlot, ruleAttributeIncrease, ruleSaveGame,
     ruleMorePrompt, ruleScreenRedraw,
     ruleLevelUpMore, ruleLevelUp, ruleItemsOnGround, ruleBetterArmor,
     ruleUntestedPotions,
     ruleShopDetected, ruleItemPickupMenu, ruleInventoryScreen, ruleInMenu,
     ruleCombatLowHealth, ruleCombatAutofight, ruleGotoLocationType,
     ruleGotoLevelNumber, ruleRestAfterAutofight, ruleExploreGoodHealth,
     ruleRestToRecover,
     ruleExploreNotReady, ruleWaitingForGameplay, ruleFallbackExploration] := by
  rfl

theorem getD_map_orElse {α β : Type} (o1 o2 : Option α) (f : α → β) (x : β) :
    ((o2 <|> o1).map f).getD x = (o2.map f).getD ((o1.map f).getD x) := by
  cases o2 <;> rfl

theorem getD_orElse {α : Type} (o1 o2 : Option α) (x : α) :
    (o2 <|> o1).getD x = o2.getD (o1.getD x) := by
  cases o2 <;> rfl

theorem orElse_self {α : Type} (o : Option α) : (o <|> o) = o := by
  cases o <;> rfl

theorem orElse_none {α : Type} (o : Option α) : (o <|> (none : Option α)) = o := by
  cases o <;> rfl

theorem applyW_empty (st : GameState) : applyW {} st = st := rfl

theorem applyW_applyW (w1 w2 : Writes) (st : GameState) :
    applyW w2 (applyW w1 st) = applyW (mergeW w1 w2) st := by
  apply GameState.ext <;>
    simp [applyW, mergeW, getD_map_orElse, getD_orElse]

theorem mergeW_self (w : Writes) : mergeW w w = w := by
  apply Writes.ext <;> simp [mergeW, orElse_self]

theorem mergeW_empty_left (w : Writes) : mergeW {} w = w := by
  apply Writes.ext <;> simp [mergeW, orElse_none]

theorem parseLine_eq (st : GameState) (l : String) :
    parseLine st l = (applyW (lineWrites l) st, (lineWrites l).found) := by
  unfold parseLine lineWrites
  by_cases h1 : l = "" ∨ (pyStrip l).length < 2
  · simp [h1, applyW_empty]
  · by_cases h2 : hasIndicator l
    · simp only [h1, h2, if_false, if_true, if_pos, if_neg, not_false_iff]
      refine Prod.ext ?_ rfl
      unfold parseStatusLine
      cases hbr : branchMatch l <;> cases hhp : hpMatch l <;>
        cases hma : manaMatch l <;> cases hxl : xlMatch l <;>
        cases hnx : nextMatch l <;> cases hgd : goldMatch l <;>
        cases hhu : hungerMatch l <;>
        simp [applyW]
    · by_cases h3 : endsDotQ l
      · simp only [h1, h2, h3, if_false, if_true, if_pos, if_neg, not_false_iff]
        refine Prod.ext ?_ rfl
        apply GameState.ext <;> simp [applyW]
      · simp [h1, h2, h3, applyW_empty]

theorem foldLines_eq : ∀ (ls : List String) (st : GameState) (found : Bool),
    foldLines st found ls =
      (applyW (combineW ls) st, ((combineW ls).found || found)) := by
  intro ls
  induction ls with
  | nil => intro st found; simp [foldLines, combineW, applyW_empty]
  | cons l ls ih =>
    intro st found
    simp only [foldLines]
    by_cases hl : pyStrip l ≠ ""
    · rw [if_pos hl, parseLine_eq, ih, applyW_applyW]
      rw [combineW, lineWritesOuter, if_pos hl]
      refine Prod.ext rfl ?_
      simp [mergeW, Bool.or_assoc, Bool.or_comm, Bool.or_left_comm]
    · rw [if_neg hl, ih, combineW, lineWritesOuter, if_neg hl, mergeW_empty_left]

/-- A stripped line whose overwrites do not set the found-status flag
writes at most the message field. -/
theorem lineWrites_not_found (l : String)
    (h : (lineWrites l).found = false) :
    (lineWrites l).branch = none ∧ (lineWrites l).health = none ∧
    (lineWrites l).mana = none ∧ (lineWrites l).xl = none ∧
    (lineWrites l).nextp = none ∧ (lineWrites l).gold = none ∧
    (lineWrites l).hunger = none ∧ (lineWrites l).statusl = none := by
  unfold lineWrites at h ⊢
  by_cases h1 : l = "" ∨ (pyStrip l).length < 2
  · rw [if_pos h1]; simp
  · rw [if_neg h1] at h ⊢
    by_cases h2 : hasIndicator l = true
    · rw [if_pos h2] at h; simp at h
    · rw [if_neg h2] at h ⊢
      by_cases h3 : endsDotQ l = true
      · rw [if_pos h3]; simp
      · rw [if_neg h3]; simp

/-- Same fact for an unstripped loop line. -/
theorem lineWritesOuter_not_found (l : String)
    (h : (lineWritesOuter l).found = false) :
    (lineWritesOuter l).branch = none ∧ (lineWritesOuter l).health = none ∧
    (lineWritesOuter l).mana = none ∧ (lineWritesOuter l).xl = none ∧
    (lineWritesOuter l).nextp = none ∧ (lineWritesOuter l).gold = none ∧
    (lineWritesOuter l).hunger = none ∧ (lineWritesOuter l).statusl = none := by
  unfold lineWritesOuter at h ⊢
  by_cases hl : pyStrip l ≠ ""
  · rw [if_pos hl] at h ⊢
    exact lineWrites_not_found _ h
  · rw [if_neg hl]; simp

/-- Combined overwrites without a status line write at most the message
field. -/
theorem combineW_not_found : ∀ (ls : List String),
    (combineW ls).found = false →
    (combineW ls).branch = none ∧ (combineW ls).health = none ∧
    (combineW ls).mana = none ∧ (combineW ls).xl = none ∧
    (combineW ls).nextp = none ∧ (combineW ls).gold = none ∧
    (combineW ls).hunger = none ∧ (combineW ls).statusl = none := by
  intro ls
  induction ls with
  | nil => intro _; simp [combineW]
  | cons l ls ih =>
    intro h
    rw [combineW] at h ⊢
    have hb : (lineWritesOuter l).found = false ∧ (combineW ls).found = false := by
      simpa [mergeW, Bool.or_eq_false_iff] using h
    have h1 := lineWritesOuter_not_found l hb.1
    have h2 := ih hb.2
    simp [mergeW, h1.1, h1.2.1, h1.2.2.1, h1.2.2.2.1, h1.2.2.2.2.1,
      h1.2.2.2.2.2.1, h1.2.2.2.2.2.2.1, h1.2.2.2.2.2.2.2,
      h2.1, h2.2.1, h2.2.2.1, h2.2.2.2.1, h2.2.2.2.2.1,
      h2.2.2.2.2.2.1, h2.2.2.2.2.2.2.1, h2.2.2.2.2.2.2.2]

/-- When the combined overwrites touch no status field, applying them
only (possibly) rewrites the message line. -/
theorem applyW_message_only {w : Writes}
    (h : w.branch = none ∧ w.health = none ∧ w.mana = none ∧ w.xl = none ∧
         w.nextp = none ∧ w.gold = none ∧ w.hunger = none ∧ w.statusl = none)
    (x : GameState) :
    applyW w x = { x with message_line := w.messagel.getD x.message_line } := by
  obtain ⟨h1, h2, h3, h4, h5, h6, h7, h8⟩ := h
  apply GameState.ext <;> simp [applyW, h1, h2, h3, h4, h5, h6, h7, h8]

/-- Theorem: `parse_output` in normal form: apply the combined overwrites, then
refresh the caches and restore health/mana when no status was found. -/
theorem parse_output_nf (σ : ParserState) (s : String) (hs : s ≠ "") :
    parse_output σ s =
      nfStep (combineW (splitNl (cleanAnsi s))) (cleanAnsi s) σ := by
  unfold parse_output nfStep
  rw [if_neg hs]
  simp only [foldLines_eq, Bool.or_false]

/-- One normal-form step is idempotent, provided that overwrites that
report no status line indeed touch no status field (which holds for the
overwrites of every actual snapshot). -/
theorem nfStep_idem (w : Writes) (c : String) (σ : ParserState)
    (hw : w.found = false →
      w.branch = none ∧ w.health = none ∧ w.mana = none ∧ w.xl = none ∧
      w.nextp = none ∧ w.gold = none ∧ w.hunger = none ∧ w.statusl = none) :
    nfStep w c (nfStep w c σ) = nfStep w c σ := by
  by_cases hf : w.found = true
  · unfold nfStep
    simp only [hf, if_true]
    rw [applyW_applyW, mergeW_self]
    by_cases hh : 0 < (applyW w σ.state).health ∧ 0 < (applyW w σ.state).max_health <;>
      by_cases hm : 0 < (applyW w σ.state).max_mana <;>
      simp [hh, hm]
  · have hf' : w.found = false := by simpa using hf
    have hfields := hw hf'
    unfold nfStep
    simp only [hf', if_false, Bool.false_eq_true]
    simp only [applyW_message_only hfields]
    cases hmsg : w.messagel <;>
      by_cases hh : 0 < σ.state.health ∧ 0 < σ.state.max_health <;>
      by_cases hm : 0 < σ.state.max_mana <;>
      simp [hmsg, hh, hm]

theorem armor_build_eq_filterMap (st : GameState) :
    ∀ (l : List (String × InventoryItem)) (acc : List (Int × String × InventoryItem)),
      l.foldl (fun acc p =>
        match armorCandidate st p.1 p.2 with
        | some e => acc ++ [e]
        | none => acc) acc =
      acc ++ l.filterMap (fun p => armorCandidate st p.1 p.2) := by
  intro l
  induction l with
  | nil => intro acc; simp
  | cons x xs ih =>
    intro acc
    simp only [List.foldl_cons, List.filterMap_cons]
    cases h : armorCandidate st x.1 x.2 with
    | none => simp [h, ih]
    | some y => simp [h, ih]

theorem head_insertDesc {β : Type} (x : Int × β) (l : List (Int × β)) :
    (insertDesc x l).head? =
      some (match l.head? with
            | none => x
            | some y => if y.1 ≤ x.1 then x else y) := by
  cases l with
  | nil => rfl
  | cons y ys =>
    by_cases h : y.1 ≤ x.1 <;> simp [insertDesc, h]

theorem sortDesc_head {β : Type} (l : List (Int × β)) :
    (sortDesc l).head? = amf l := by
  induction l with
  | nil => rfl
  | cons x xs ih =>
    rw [sortDesc, head_insertDesc, amf]
    cases hs : (sortDesc xs).head? with
    | none => rw [hs] at ih; rw [← ih]
    | some y =>
      rw [hs] at ih
      rw [← ih]
      by_cases hxy : y.1 ≤ x.1
      · have : ¬ x.1 < y.1 := not_lt.mpr hxy
        simp [hxy, this]
      · have : x.1 < y.1 := not_le.mp hxy
        simp [hxy, this]

/-! ### Decimal strings are never a letter -/

theorem digitChar_ne_o (k : Nat) : Nat.digitChar k ≠ 'o' := by
  rcases Nat.lt_or_ge k 16 with hk | hk
  · interval_cases k <;> decide
  · intro h
    have hne : ∀ j, j < 16 → ¬ k = j := by omega
    unfold Nat.digitChar at h
    rw [if_neg (hne 0 (by norm_num)), if_neg (hne 1 (by norm_num)),
        if_neg (hne 2 (by norm_num)), if_neg (hne 3 (by norm_num)),
        if_neg (hne 4 (by norm_num)), if_neg (hne 5 (by norm_num)),
        if_neg (hne 6 (by norm_num)), if_neg (hne 7 (by norm_num)),
        if_neg (hne 8 (by norm_num)), if_neg (hne 9 (by norm_num)),
        if_neg (hne 10 (by norm_num)), if_neg (hne 11 (by norm_num)),
        if_neg (hne 12 (by norm_num)), if_neg (hne 13 (by norm_num)),
        if_neg (hne 14 (by norm_num)), if_neg (hne 15 (by norm_num))] at h
    exact absurd h (by decide)

theorem toDigitsCore_mem (b : Nat) :
    ∀ (fuel n : Nat) (ds : List Char) (c : Char),
      c ∈ Nat.toDigitsCore b fuel n ds → c ∈ ds ∨ ∃ k, c = Nat.digitChar k := by
  intro fuel
  induction fuel with
  | zero => intro n ds c h; exact Or.inl h
  | succ fuel ih =>
    intro n ds c h
    simp only [Nat.toDigitsCore] at h
    split at h
    · rcases List.mem_cons.mp h with h | h
      · exact Or.inr ⟨n % b, h⟩
      · exact Or.inl h
    · rcases ih (n / b) (Nat.digitChar (n % b) :: ds) c h with h' | h'
      · rcases List.mem_cons.mp h' with h'' | h''
        · exact Or.inr ⟨n % b, h''⟩
        · exact Or.inl h''
      · exact Or.inr h'

theorem natRepr_ne_o (m : Nat) : Nat.repr m ≠ "o" := by
  intro h
  have hd : (Nat.toDigits 10 m) = ['o'] := by
    have h2 := congrArg String.data h
    simpa [Nat.repr, List.asString, show ("o" : String).data = ['o'] from rfl] using h2
  have hmem : 'o' ∈ Nat.toDigits 10 m := by rw [hd]; exact List.mem_singleton.mpr rfl
  rcases toDigitsCore_mem 10 (m + 1) m [] 'o' hmem with h' | ⟨k, hk⟩
  · simp at h'
  · exact digitChar_ne_o k hk.symm

/-- The decimal string of an integer is never the explore key `"o"`. -/
theorem intToString_ne_o (n : Int) : toString n ≠ "o" := by
  show Int.repr n ≠ "o"
  cases n with
  | ofNat m => exact natRepr_ne_o m
  | negSucc m =>
    intro h
    have h2 := congrArg String.data h
    rw [Int.repr, String.data_append] at h2
    simp only [show ("-" : String).data = ['-'] from rfl,
               show ("o" : String).data = ['o'] from rfl] at h2
    simp at h2

/-! ### Propagation lemmas for combined overwrites -/

/-- A predicate holding for `none` and for every line's value of a
field also holds for the combined value of that field. -/
theorem combineW_acc {α : Type} (f : Writes → Option α)
    (hmerge : ∀ w1 w2, f (mergeW w1 w2) = (f w2 <|> f w1))
    (hempty : f {} = none)
    (P : Option α → Prop) (h0 : P none) :
    ∀ ls : List String,
      (∀ l ∈ ls, P (f (lineWritesOuter l))) → P (f (combineW ls)) := by
  intro ls
  induction ls with
  | nil =>
    intro _
    rw [show combineW [] = {} from rfl, hempty]
    exact h0
  | cons l ls ih =>
    intro h
    rw [show combineW (l :: ls) = mergeW (lineWritesOuter l) (combineW ls) from rfl,
        hmerge]
    cases hc : f (combineW ls) with
    | some v =>
      have hI := ih (fun x hx => h x (List.mem_cons_of_mem _ hx))
      rw [hc] at hI
      exact hI
    | none => exact h l (List.mem_cons_self _ _)

theorem lineWritesOuter_health_le (l : String) (h : hpOk l = true) :
    ∀ hm : Nat × Nat, (lineWritesOuter l).health = some hm → hm.1 ≤ hm.2 := by
  intro hm hEq
  unfold lineWritesOuter lineWrites at hEq
  by_cases hl : pyStrip l ≠ ""
  · rw [if_pos hl] at hEq
    by_cases h1 : pyStrip l = "" ∨ (pyStrip (pyStrip l)).length < 2
    · rw [if_pos h1] at hEq; cases hEq
    · rw [if_neg h1] at hEq
      by_cases h2 : hasIndicator (pyStrip l) = true
      · rw [if_pos h2] at hEq
        have hEq2 : hpMatch (pyStrip l) = some hm := hEq
        unfold hpOk at h
        rw [hEq2] at h
        simpa using h
      · rw [if_neg h2] at hEq
        by_cases h3 : endsDotQ (pyStrip l) = true
        · rw [if_pos h3] at hEq; cases hEq
        · rw [if_neg h3] at hEq; cases hEq
  · rw [if_neg hl] at hEq; cases hEq

theorem lineWritesOuter_nextp_le (l : String) (h : nextOk l = true) :
    ∀ p : Nat, (lineWritesOuter l).nextp = some p → p ≤ 100 := by
  intro p hEq
  unfold lineWritesOuter lineWrites at hEq
  by_cases hl : pyStrip l ≠ ""
  · rw [if_pos hl] at hEq
    by_cases h1 : pyStrip l = "" ∨ (pyStrip (pyStrip l)).length < 2
    · rw [if_pos h1] at hEq; cases hEq
    · rw [if_neg h1] at hEq
      by_cases h2 : hasIndicator (pyStrip l) = true
      · rw [if_pos h2] at hEq
        have hEq2 : nextMatch (pyStrip l) = some p := hEq
        unfold nextOk at h
        rw [hEq2] at h
        simpa using h
      · rw [if_neg h2] at hEq
        by_cases h3 : endsDotQ (pyStrip l) = true
        · rw [if_pos h3] at hEq; cases hEq
        · rw [if_neg h3] at hEq; cases hEq
  · rw [if_neg hl] at hEq; cases hEq

theorem lineWritesOuter_found_false (l : String)
    (h : hasIndicator (pyStrip l) = false) :
    (lineWritesOuter l).found = false := by
  unfold lineWritesOuter lineWrites
  by_cases hl : pyStrip l ≠ ""
  · rw [if_pos hl]
    by_cases h1 : pyStrip l = "" ∨ (pyStrip (pyStrip l)).length < 2
    · rw [if_pos h1]
    · rw [if_neg h1]
      rw [if_neg (by simp [h])]
      by_cases h3 : endsDotQ (pyStrip l) = true
      · rw [if_pos h3]
      · rw [if_neg h3]
  · rw [if_neg hl]

theorem combineW_found_false (ls : List String)
    (h : ∀ l ∈ ls, hasIndicator (pyStrip l) = false) :
    (combineW ls).found = false := by
  induction ls with
  | nil => rfl
  | cons l ls ih =>
    rw [show combineW (l :: ls) = mergeW (lineWritesOuter l) (combineW ls) from rfl]
    rw [show (mergeW (lineWritesOuter l) (combineW ls)).found =
        ((lineWritesOuter l).found || (combineW ls).found) from rfl]
    rw [lineWritesOuter_found_false l (h l (List.mem_cons_self _ _)),
        ih (fun x hx => h x (List.mem_cons_of_mem _ hx))]
    rfl

/-! ### Engine evaluation helpers -/

/-- With no higher rule matching, an enemy, and health percentage at
most 70, the default engine picks the hard-coded move-right key. -/
theorem decideDefault_combat_low (ctx : DecisionContext)
    (h1 : ctx.equip_slot_pending = false) (h2 : ctx.quaff_slot_pending = false)
    (h3 : ctx.attribute_increase_prompt = false) (h4 : ctx.save_game_prompt = false)
    (h5 : ctx.has_more_prompt = false)
    (h6 : (ctx.health == 0 && ctx.max_health == 0) = false)
    (h7 : ctx.has_level_up = false) (h8 : ctx.items_on_ground = false)
    (h9 : ctx.in_shop = false) (h10 : ctx.in_item_pickup_menu = false)
    (h11 : ctx.in_inventory_screen = false) (h12 : ctx.in_menu = false)
    (h13 : ctx.enemy_detected = true)
    (hp : healthPercentage ctx ≤ 70) :
    (decideDefault ctx).1 = some "l" := by
  have hd : decide (healthPercentage ctx ≤ 70) = true := decide_eq_true hp
  unfold decideDefault engineDecide
  rw [sortRules_default]
  simp [decideLoop, ruleEquipSlot, ruleQuaffSlot, ruleAttributeIncrease, ruleSaveGame,
        ruleMorePrompt, ruleScreenRedraw, ruleLevelUpMore, ruleLevelUp, ruleItemsOnGround,
        ruleBetterArmor, ruleUntestedPotions, ruleShopDetected, ruleItemPickupMenu,
        ruleInventoryScreen, ruleInMenu, ruleCombatLowHealth,
        h1, h2, h3, h4, h5, h6, h7, h8, h9, h10, h11, h12, h13, hd]

/-- With no higher rule matching, an enemy, and health percentage above
70, the default engine picks autofight. -/
theorem decideDefault_combat_auto (ctx : DecisionContext)
    (h1 : ctx.equip_slot_pending = false) (h2 : ctx.quaff_slot_pending = false)
    (h3 : ctx.attribute_increase_prompt = false) (h4 : ctx.save_game_prompt = false)
    (h5 : ctx.has_more_prompt = false)
    (h6 : (ctx.health == 0 && ctx.max_health == 0) = false)
    (h7 : ctx.has_level_up = false) (h8 : ctx.items_on_ground = false)
    (h9 : ctx.in_shop = false) (h10 : ctx.in_item_pickup_menu = false)
    (h11 : ctx.in_inventory_screen = false) (h12 : ctx.in_menu = false)
    (h13 : ctx.enemy_detected = true)
    (hp : 70 < healthPercentage ctx) :
    (decideDefault ctx).1 = some "\t" := by
  have hd1 : decide (healthPercentage ctx ≤ 70) = false :=
    decide_eq_false (not_le.mpr hp)
  have hd2 : decide (70 < healthPercentage ctx) = true := decide_eq_true hp
  unfold decideDefault engineDecide
  rw [sortRules_default]
  simp [decideLoop, ruleEquipSlot, ruleQuaffSlot, ruleAttributeIncrease, ruleSaveGame,
        ruleMorePrompt, ruleScreenRedraw, ruleLevelUpMore, ruleLevelUp, ruleItemsOnGround,
        ruleBetterArmor, ruleUntestedPotions, ruleShopDetected, ruleItemPickupMenu,
        ruleInventoryScreen, ruleInMenu, ruleCombatLowHealth, ruleCombatAutofight,
        h1, h2, h3, h4, h5, h6, h7, h8, h9, h10, h11, h12, h13, hd1, hd2]

/-- If some rule of the list has a true, non-raising condition and a
non-raising action, the rule loop produces a command. -/
theorem decideLoop_total : ∀ (l : List Rule) (ctx : DecisionContext),
    (∃ r ∈ l, r.condition ctx = .ok true ∧ ∃ p, r.action ctx = .ok p) →
    ∃ cmd reason, decideLoop ctx l = (some cmd, reason) := by
  intro l
  induction l with
  | nil => intro ctx h; simp at h
  | cons a rest ih =>
    intro ctx h
    rcases h with ⟨r, hr, hcond, p, hact⟩
    rcases List.mem_cons.mp hr with hra | hrr
    · subst hra
      rw [show decideLoop ctx (r :: rest) =
          (match r.condition ctx with
           | .error _ => decideLoop ctx rest
           | .ok false => decideLoop ctx rest
           | .ok true =>
             match r.action ctx with
             | .error _ => decideLoop ctx rest
             | .ok cr => (some cr.1, cr.2)) from rfl]
      rw [hcond, hact]
      exact ⟨p.1, p.2, rfl⟩
    · rw [show decideLoop ctx (a :: rest) =
          (match a.condition ctx with
           | .error _ => decideLoop ctx rest
           | .ok false => decideLoop ctx rest
           | .ok true =>
             match a.action ctx with
             | .error _ => decideLoop ctx rest
             | .ok cr => (some cr.1, cr.2)) from rfl]
      cases hc : a.condition ctx with
      | error e => exact ih ctx ⟨r, hrr, hcond, p, hact⟩
      | ok b =>
        cases b with
        | false => exact ih ctx ⟨r, hrr, hcond, p, hact⟩
        | true =>
          cases ha : a.action ctx with
          | error e => exact ih ctx ⟨r, hrr, hcond, p, hact⟩
          | ok cr => exact ⟨cr.1, cr.2, rfl⟩

/-! ### The claims -/

/-- C1 (counterexample): in a context where no CRITICAL condition
holds, `in_shop` is true and `items_on_ground` is true, `decide`
returns the grab-items command `g` (the URGENT band, value 5), not the
shop-exit escape (the HIGH band, value 10) — so the HIGH band is *not*
evaluated before the URGENT band. -/
theorem claim_C1_counterexample :
    (decideDefault ctxShopItems).1 = some "g" ∧
    (decideDefault ctxShopItems).1 ≠ some "\x1b" := by
  constructor
  · rfl
  · intro h
    rw [show (decideDefault ctxShopItems).1 = some "g" from rfl] at h
    simp at h

/-- C1 (amended): the engine evaluates the URGENT band (value 5)
before the HIGH band (value 10): for every context in which no
CRITICAL-band condition holds and no earlier URGENT rule matches
(no level-up), with items on the ground and inside a shop, `decide`
returns the grab-items command, not the shop-exit command. -/
theorem claim_C1_amended (ctx : DecisionContext)
    (h1 : ctx.equip_slot_pending = false) (h2 : ctx.quaff_slot_pending = false)
    (h3 : ctx.attribute_increase_prompt = false) (h4 : ctx.save_game_prompt = false)
    (h5 : ctx.has_more_prompt = false)
    (h6 : (ctx.health == 0 && ctx.max_health == 0) = false)
    (h7 : ctx.has_level_up = false)
    (h8 : ctx.items_on_ground = true) (h9 : ctx.in_shop = true) :
    decideDefault ctx = (some "g", "Grabbing items from ground") ∧
    (decideDefault ctx).1 ≠ some "\x1b" := by
  have hd : decideDefault ctx = (some "g", "Grabbing items from ground") := by
    unfold decideDefault engineDecide
    rw [sortRules_default]
    simp [decideLoop, ruleEquipSlot, ruleQuaffSlot, ruleAttributeIncrease,
          ruleSaveGame, ruleMorePrompt, ruleScreenRedraw, ruleLevelUpMore,
          ruleLevelUp, ruleItemsOnGround,
          h1, h2, h3, h4, h5, h6, h7, h8]
  refine ⟨hd, ?_⟩
  rw [hd]
  simp

/-- C1 (amended, witness): the amended claim at the concrete shop-and-
items context. -/
theorem claim_C1_amended_witness :
    ctxShopItems.in_shop = true ∧ ctxShopItems.items_on_ground = true ∧
    decideDefault ctxShopItems = (some "g", "Grabbing items from ground") :=
  ⟨rfl, rfl,
    (claim_C1_amended ctxShopItems rfl rfl rfl rfl rfl rfl rfl rfl rfl).1⟩

/-- C2 (counterexample): with an enemy detected at 50% health, the
engine returns the hard-coded move-right key `l`, while the direction
computed from the `@` and enemy glyph positions per §4.3
(`_calculate_direction_to_enemy`) is `k` (up) — so the returned move
command is not the computed direction. -/
theorem claim_C2_counterexample :
    (decideDefault ctxLowCombat).1 = some "l" ∧
    calculateDirectionToEnemy ctxLowCombat.output ctxLowCombat.enemy_name = some 'k' ∧
    (some "l" : Option String) ≠ some "k" := by
  refine ⟨?_, by decide, by decide⟩
  have hp : healthPercentage ctxLowCombat ≤ 70 := by
    norm_num [healthPercentage, ctxLowCombat, ctxBase]
  exact decideDefault_combat_low ctxLowCombat rfl rfl rfl rfl rfl rfl rfl rfl rfl
    rfl rfl rfl rfl hp

/-- C2 (amended): for every context with an enemy detected and no
higher-urgency rule matching, health percentage at most 70 yields the
fixed move-right command `l` (the source hard-codes the direction and
defers map-based direction calculation), and health percentage above
70 yields the autofight command. -/
theorem claim_C2_amended (ctx : DecisionContext)
    (h1 : ctx.equip_slot_pending = false) (h2 : ctx.quaff_slot_pending = false)
    (h3 : ctx.attribute_increase_prompt = false) (h4 : ctx.save_game_prompt = false)
    (h5 : ctx.has_more_prompt = false)
    (h6 : (ctx.health == 0 && ctx.max_health == 0) = false)
    (h7 : ctx.has_level_up = false) (h8 : ctx.items_on_ground = false)
    (h9 : ctx.in_shop = false) (h10 : ctx.in_item_pickup_menu = false)
    (h11 : ctx.in_inventory_screen = false) (h12 : ctx.in_menu = false)
    (h13 : ctx.enemy_detected = true) :
    (healthPercentage ctx ≤ 70 → (decideDefault ctx).1 = some "l") ∧
    (70 < healthPercentage ctx → (decideDefault ctx).1 = some "\t") := by
  constructor
  · intro hp
    exact decideDefault_combat_low ctx h1 h2 h3 h4 h5 h6 h7 h8 h9 h10 h11 h12 h13 hp
  · intro hp
    exact decideDefault_combat_auto ctx h1 h2 h3 h4 h5 h6 h7 h8 h9 h10 h11 h12 h13 hp

/-- C2 (amended, witness): both branches at concrete contexts (50%
health and 80% health). -/
theorem claim_C2_amended_witness :
    healthPercentage ctxLowCombat ≤ 70 ∧ (decideDefault ctxLowCombat).1 = some "l" ∧
    70 < healthPercentage ctxHighCombat ∧ (decideDefault ctxHighCombat).1 = some "\t" := by
  have hlow : healthPercentage ctxLowCombat ≤ 70 := by
    norm_num [healthPercentage, ctxLowCombat, ctxBase]
  have hhigh : 70 < healthPercentage ctxHighCombat := by
    norm_num [healthPercentage, ctxHighCombat, ctxBase]
  exact ⟨hlow,
    (claim_C2_amended ctxLowCombat rfl rfl rfl rfl rfl rfl rfl rfl rfl rfl rfl rfl
      rfl).1 hlow,
    hhigh,
    (claim_C2_amended ctxHighCombat rfl rfl rfl rfl rfl rfl rfl rfl rfl rfl rfl rfl
      rfl).2 hhigh⟩

/-- C3 (counterexample): the extractor copies the numbers it matches
without any consistency check, so the snapshot `"Health: 50/20"` drives
the parsed state to `health = 50 > 20 = maxHealth` with
`maxHealth > 0` — the claimed invariant fails. -/
theorem claim_C3_counterexample :
    0 < (parse_output initParser "Health: 50/20").state.max_health ∧
    (parse_output initParser "Health: 50/20").state.health = 50 ∧
    (parse_output initParser "Health: 50/20").state.max_health = 20 ∧
    ¬ (parse_output initParser "Health: 50/20").state.health ≤
        (parse_output initParser "Health: 50/20").state.max_health := by
  refine ⟨by decide, by decide, by decide, by decide⟩

/-- C3 (amended): the invariants `health ≤ maxHealth` (when
`maxHealth > 0`) and `experienceProgress ≤ 100` (the lower bound holds
since the fields are parsed from digit runs) are preserved by `parse`
for every snapshot whose own reported values satisfy them — every
health pair matched on a line has `health ≤ maxHealth` and every
matched progress value is at most 100 — given a parser state (current
values and cache) already satisfying them. -/
theorem claim_C3_amended (σ : ParserState) (s : String)
    (hwf1 : 0 < σ.state.max_health → σ.state.health ≤ σ.state.max_health)
    (hwf2 : 0 < σ.last_health.2 → σ.last_health.1 ≤ σ.last_health.2)
    (hwf3 : σ.state.experience_progress ≤ 100)
    (hc : ∀ l ∈ splitNl (cleanAnsi s), hpOk l = true ∧ nextOk l = true) :
    (0 < (parse_output σ s).state.max_health →
      (parse_output σ s).state.health ≤ (parse_output σ s).state.max_health) ∧
    (parse_output σ s).state.experience_progress ≤ 100 := by
  by_cases hs : s = ""
  · subst hs
    exact ⟨hwf1, hwf3⟩
  · rw [parse_output_nf σ s hs]
    have hPh : ∀ hm : Nat × Nat,
        (combineW (splitNl (cleanAnsi s))).health = some hm → hm.1 ≤ hm.2 :=
      combineW_acc (fun w => w.health) (fun _ _ => rfl) rfl
        (fun o => ∀ hm, o = some hm → hm.1 ≤ hm.2)
        (fun hm h => by cases h)
        (splitNl (cleanAnsi s))
        (fun l hl => lineWritesOuter_health_le l (hc l hl).1)
    have hPn : ∀ p : Nat,
        (combineW (splitNl (cleanAnsi s))).nextp = some p → p ≤ 100 :=
      combineW_acc (fun w => w.nextp) (fun _ _ => rfl) rfl
        (fun o => ∀ p, o = some p → p ≤ 100)
        (fun p h => by cases h)
        (splitNl (cleanAnsi s))
        (fun l hl => lineWritesOuter_nextp_le l (hc l hl).2)
    set w := combineW (splitNl (cleanAnsi s)) with hw
    set st := applyW w σ.state with hst
    have hsth : 0 < st.max_health → st.health ≤ st.max_health := by
      cases whh : w.health with
      | some hm =>
        rw [hst]
        simp only [applyW, whh, Option.map_some', Option.getD_some]
        exact fun _ => hPh hm whh
      | none =>
        rw [hst]
        simp only [applyW, whh, Option.map_none', Option.getD_none]
        exact hwf1
    have hste : st.experience_progress ≤ 100 := by
      cases whn : w.nextp with
      | some p =>
        rw [hst]
        simp only [applyW, whn, Option.getD_some]
        exact hPn p whn
      | none =>
        rw [hst]
        simp only [applyW, whn, Option.getD_none]
        exact hwf3
    unfold nfStep
    rw [← hst]
    by_cases hf : w.found
    · simp only [hf, if_true]
      exact ⟨hsth, hste⟩
    · simp only [hf, if_false, Bool.false_eq_true]
      by_cases hcond : 0 < st.health ∧ 0 < st.max_health
      · simp only [hcond, if_true, if_pos]
        exact ⟨hsth, hste⟩
      · simp only [hcond, if_false, if_neg, not_false_iff]
        exact ⟨hwf2, hste⟩

/-- C3 (amended, witness): the amended claim at a fresh parser and the
consistent snapshot `"Health: 23/23 Next: 30%"`. -/
theorem claim_C3_amended_witness :
    (∀ l ∈ splitNl (cleanAnsi "Health: 23/23 Next: 30%"),
      hpOk l = true ∧ nextOk l = true) ∧
    ((0 < (parse_output initParser "Health: 23/23 Next: 30%").state.max_health →
      (parse_output initParser "Health: 23/23 Next: 30%").state.health ≤
        (parse_output initParser "Health: 23/23 Next: 30%").state.max_health) ∧
     (parse_output initParser "Health: 23/23 Next: 30%").state.experience_progress
       ≤ 100) :=
  ⟨by decide,
   claim_C3_amended initParser "Health: 23/23 Next: 30%"
     (by decide) (by decide) (by decide) (by decide)⟩

/-- C4: when the has-more-prompt flag and the enemy-detected flag are
both set and no other pending-prompt flag is set, `decide` returns the
prompt-dismissal space (the "More prompt" CRITICAL rule precedes every
combat rule), never a combat command. -/
theorem claim_C4_more_prompt_over_combat (ctx : DecisionContext)
    (h1 : ctx.equip_slot_pending = false) (h2 : ctx.quaff_slot_pending = false)
    (h3 : ctx.attribute_increase_prompt = false) (h4 : ctx.save_game_prompt = false)
    (h5 : ctx.has_more_prompt = true) (h6 : ctx.enemy_detected = true) :
    decideDefault ctx = (some " ", "Dismissing --more-- prompt") ∧
    (decideDefault ctx).1 ≠ some "l" ∧ (decideDefault ctx).1 ≠ some "\t" := by
  have hd : decideDefault ctx = (some " ", "Dismissing --more-- prompt") := by
    unfold decideDefault engineDecide
    rw [sortRules_default]
    simp [decideLoop, ruleEquipSlot, ruleQuaffSlot, ruleAttributeIncrease,
          ruleSaveGame, ruleMorePrompt, h1, h2, h3, h4, h5]
  refine ⟨hd, ?_, ?_⟩ <;> rw [hd] <;> simp

/-- C4 (witness): the claim at a concrete context with a "more" prompt
and a detected enemy. -/
theorem claim_C4_witness :
    ctxMoreEnemy.has_more_prompt = true ∧ ctxMoreEnemy.enemy_detected = true ∧
    decideDefault ctxMoreEnemy = (some " ", "Dismissing --more-- prompt") :=
  ⟨rfl, rfl,
   (claim_C4_more_prompt_over_combat ctxMoreEnemy rfl rfl rfl rfl rfl rfl).1⟩

/-- C5 (counterexample): on the snapshot `"Health: 0/30"` health and
maxHealth *are* found this turn (the health pattern matches `(0, 30)`),
yet the cache is not updated — the source only refreshes the cache when
the parsed health is strictly positive, so it keeps `(10, 10)`. -/
theorem claim_C5_counterexample :
    hpMatch (pyStrip "Health: 0/30") = some (0, 30) ∧
    (parse_output initParser "Health: 0/30").state.health = 0 ∧
    (parse_output initParser "Health: 0/30").state.max_health = 30 ∧
    (parse_output initParser "Health: 0/30").last_health = (10, 10) ∧
    ((10, 10) : Nat × Nat) ≠ (0, 30) := by
  refine ⟨by decide, by decide, by decide, by decide, by decide⟩

/-- C5 (amended): when a parsed snapshot contains no status-indicator
line, the parser restores health, maxHealth, mana and maxMana from its
caches (which are refreshed first from the still-current state values
when positive), so a cache with positive health never lets the health
field drop to zero on a blank frame; and whenever the state holds
positive health and maxHealth after a parse, the cache equals that
health pair — i.e. the cache is updated on turns that found positive
values, not on every turn on which health "was found". -/
theorem claim_C5_amended (σ : ParserState) (s : String) (hs : s ≠ "") :
    ((∀ l ∈ splitNl (cleanAnsi s), hasIndicator (pyStrip l) = false) →
      ((parse_output σ s).state.health, (parse_output σ s).state.max_health) =
        (parse_output σ s).last_health ∧
      ((parse_output σ s).state.mana, (parse_output σ s).state.max_mana) =
        (parse_output σ s).last_mana ∧
      (parse_output σ s).last_health =
        (if 0 < σ.state.health ∧ 0 < σ.state.max_health
         then (σ.state.health, σ.state.max_health) else σ.last_health) ∧
      (parse_output σ s).last_mana =
        (if 0 ≤ σ.state.mana ∧ 0 < σ.state.max_mana
         then (σ.state.mana, σ.state.max_mana) else σ.last_mana) ∧
      (0 < σ.last_health.1 → 0 < (parse_output σ s).state.health)) ∧
    (0 < (parse_output σ s).state.health → 0 < (parse_output σ s).state.max_health →
      (parse_output σ s).last_health =
        ((parse_output σ s).state.health, (parse_output σ s).state.max_health)) := by
  rw [parse_output_nf σ s hs]
  set w := combineW (splitNl (cleanAnsi s)) with hw
  constructor
  · intro hns
    have hf : w.found = false := combineW_found_false _ hns
    have hfields := combineW_not_found (splitNl (cleanAnsi s)) hf
    rw [← hw] at hfields
    have hh : (applyW w σ.state).health = σ.state.health := by
      simp [applyW, hfields.2.1]
    have hmh : (applyW w σ.state).max_health = σ.state.max_health := by
      simp [applyW, hfields.2.1]
    have hm : (applyW w σ.state).mana = σ.state.mana := by
      simp [applyW, hfields.2.2.1]
    have hmm : (applyW w σ.state).max_mana = σ.state.max_mana := by
      simp [applyW, hfields.2.2.1]
    unfold nfStep
    simp only [hf, if_false, Bool.false_eq_true, hh, hmh, hm, hmm]
    refine ⟨trivial, trivial, trivial, trivial, ?_⟩
    intro hpos
    by_cases hcond : 0 < σ.state.health ∧ 0 < σ.state.max_health
    · simp only [hcond, if_pos]
      exact hcond.1
    · simp only [hcond, if_neg, not_false_iff]
      exact hpos
  · unfold nfStep
    by_cases hf : w.found
    · simp only [hf, if_true]
      intro hph hpm
      rw [if_pos ⟨hph, hpm⟩]
    · simp only [hf, if_false, Bool.false_eq_true]
      intro _ _
      trivial

/-- C5 (amended, witness): the amended claim at a parser state with a
positive cache and an indicator-free snapshot. -/
theorem claim_C5_amended_witness :
    (∀ l ∈ splitNl (cleanAnsi "You see here a rock.\nfoo"),
      hasIndicator (pyStrip l) = false) ∧
    ((parse_output initParser "You see here a rock.\nfoo").state.health,
     (parse_output initParser "You see here a rock.\nfoo").state.max_health) =
      (parse_output initParser "You see here a rock.\nfoo").last_health ∧
    (0 < (parse_output initParser "You see here a rock.\nfoo").state.health) := by
  have h := claim_C5_amended initParser "You see here a rock.\nfoo" (by decide)
  have hns : ∀ l ∈ splitNl (cleanAnsi "You see here a rock.\nfoo"),
      hasIndicator (pyStrip l) = false := by decide
  exact ⟨hns, (h.1 hns).1, (h.1 hns).2.2.2.2 (by decide)⟩

/-- C6: the extractor's parse is idempotent — feeding the same snapshot
twice leaves the whole parser state (`GameState` plus both caches and
the stored screen text) after the second call identical to what it was
after the first call. -/
theorem claim_C6_parse_idempotent (σ : ParserState) (s : String) :
    parse_output (parse_output σ s) s = parse_output σ s := by
  by_cases hs : s = ""
  · subst hs
    rfl
  · rw [parse_output_nf σ s hs,
        parse_output_nf (nfStep (combineW (splitNl (cleanAnsi s))) (cleanAnsi s) σ) s hs]
    exact nfStep_idem _ _ _ (combineW_not_found _)

/-- C7 (counterexample): for an inventory holding a single unequipped
body armor with `ac_value = 0` and nothing equipped, the spec's
reference definition (empty slot infinitely improvable) returns the
item, while `find_better_armor` returns none — the source only
considers candidates with strictly negative `ac_value`, so the two
definitions differ. -/
theorem claim_C7_counterexample :
    find_better_armor stPlainRobe = none ∧
    findBetterArmorSpec stPlainRobe = some ("a", itemPlainRobe) ∧
    find_better_armor stPlainRobe ≠ findBetterArmorSpec stPlainRobe := by
  refine ⟨by decide, by decide, by decide⟩

/-- C7 (amended): `find_better_armor` equals this reference definition:
among armor items in the inventory that are not equipped, have an
equipment slot, and have strictly negative `ac_value`, a candidate's
improvement is `equipped.ac_value − item.ac_value` when an item is
equipped in the same slot and the candidate is strictly lower, and
`|ac_value|` when the slot is empty; the first-encountered candidate
with the largest improvement is returned, and none when there is no
candidate. -/
theorem claim_C7_amended (st : GameState) :
    find_better_armor st = findBetterArmorAmended st := by
  unfold find_better_armor findBetterArmorAmended
  simp only [armor_build_eq_filterMap, List.nil_append]
  have h := sortDesc_head (st.inventory_items.filterMap
    (fun p => armorCandidate st p.1 p.2))
  cases hs : sortDesc (st.inventory_items.filterMap
      (fun p => armorCandidate st p.1 p.2)) with
  | nil => rw [hs] at h; simp at h; rw [← h]
  | cons e t => rw [hs] at h; simp at h; rw [← h]

/-- C8: with no higher-priority rule matching (no prompts, menus,
level-up, ground items, or enemy), goto-state `awaiting_location_type`
makes `decide` return the branch-select key `D`, goto-state
`awaiting_level_number` makes it return the decimal string of the goto
target level, and neither response re-issues the explore command `o`
(a decimal integer string is never `"o"`). -/
theorem claim_C8_goto_responses (ctx : DecisionContext)
    (h1 : ctx.equip_slot_pending = false) (h2 : ctx.quaff_slot_pending = false)
    (h3 : ctx.attribute_increase_prompt = false) (h4 : ctx.save_game_prompt = false)
    (h5 : ctx.has_more_prompt = false)
    (h6 : (ctx.health == 0 && ctx.max_health == 0) = false)
    (h7 : ctx.has_level_up = false) (h8 : ctx.items_on_ground = false)
    (h9 : ctx.in_shop = false) (h10 : ctx.in_item_pickup_menu = false)
    (h11 : ctx.in_inventory_screen = false) (h12 : ctx.in_menu = false)
    (h13 : ctx.enemy_detected = false) :
    (ctx.goto_state = some "awaiting_location_type" →
      decideDefault ctx = (some "D", "Selecting Dungeon from goto location menu") ∧
      (decideDefault ctx).1 ≠ some "o") ∧
    (ctx.goto_state = some "awaiting_level_number" →
      (decideDefault ctx).1 = some (toString ctx.goto_target_level) ∧
      (decideDefault ctx).1 ≠ some "o") := by
  constructor
  · intro hg
    have hbeq : (ctx.goto_state == some "awaiting_location_type") = true := by
      rw [hg]; rfl
    have hd : decideDefault ctx =
        (some "D", "Selecting Dungeon from goto location menu") := by
      unfold decideDefault engineDecide
      rw [sortRules_default]
      simp [decideLoop, ruleEquipSlot, ruleQuaffSlot, ruleAttributeIncrease,
            ruleSaveGame, ruleMorePrompt, ruleScreenRedraw, ruleLevelUpMore,
            ruleLevelUp, ruleItemsOnGround, ruleBetterArmor, ruleUntestedPotions,
            ruleShopDetected, ruleItemPickupMenu, ruleInventoryScreen, ruleInMenu,
            ruleCombatLowHealth, ruleCombatAutofight, ruleGotoLocationType,
            h1, h2, h3, h4, h5, h6, h7, h8, h9, h10, h11, h12, h13, hbeq]
    refine ⟨hd, ?_⟩
    rw [hd]
    simp
  · intro hg
    have hbeq1 : (ctx.goto_state == some "awaiting_location_type") = false := by
      rw [hg]; rfl
    have hbeq2 : (ctx.goto_state == some "awaiting_level_number") = true := by
      rw [hg]; rfl
    have hd : (decideDefault ctx).1 = some (toString ctx.goto_target_level) := by
      unfold decideDefault engineDecide
      rw [sortRules_default]
      simp [decideLoop, ruleEquipSlot, ruleQuaffSlot, ruleAttributeIncrease,
            ruleSaveGame, ruleMorePrompt, ruleScreenRedraw, ruleLevelUpMore,
            ruleLevelUp, ruleItemsOnGround, ruleBetterArmor, ruleUntestedPotions,
            ruleShopDetected, ruleItemPickupMenu, ruleInventoryScreen, ruleInMenu,
            ruleCombatLowHealth, ruleCombatAutofight, ruleGotoLocationType,
            ruleGotoLevelNumber,
            h1, h2, h3, h4, h5, h6, h7, h8, h9, h10, h11, h12, h13, hbeq1, hbeq2]
    refine ⟨hd, ?_⟩
    rw [hd]
    intro h
    have := Option.some.inj h
    exact intToString_ne_o ctx.goto_target_level this

/-- C8 (witness): both goto responses at concrete contexts (target
level 2 for the location prompt; target level 5 for the number
prompt, answered with `"5"`). -/
theorem claim_C8_witness :
    ctxGotoLoc.goto_state = some "awaiting_location_type" ∧
    decideDefault ctxGotoLoc = (some "D", "Selecting Dungeon from goto location menu") ∧
    ctxGotoNum.goto_state = some "awaiting_level_number" ∧
    (decideDefault ctxGotoNum).1 = some (toString ctxGotoNum.goto_target_level) :=
  ⟨rfl,
   ((claim_C8_goto_responses ctxGotoLoc rfl rfl rfl rfl rfl rfl rfl rfl rfl rfl rfl
      rfl rfl).1 rfl).1,
   rfl,
   ((claim_C8_goto_responses ctxGotoNum rfl rfl rfl rfl rfl rfl rfl rfl rfl rfl rfl
      rfl rfl).2 rfl).1⟩

/-- C9: the character-creation machine's gameplay state is terminal —
for every pattern table and every sequence of screen texts, once the
current state is gameplay, every subsequent `update` leaves it at
gameplay (`_process_screen` returns immediately in gameplay). -/
theorem claim_C9_gameplay_terminal
    (matcher : CCState → String → Bool) (m : CCMachine) (texts : List String)
    (h : m.current = CCState.gameplay) :
    (texts.foldl (ccUpdate matcher) m).current = CCState.gameplay := by
  induction texts generalizing m with
  | nil => exact h
  | cons t ts ih =>
    rw [List.foldl_cons]
    apply ih
    unfold ccUpdate processScreen
    simp [h]

/-- C9 (witness): a machine already in gameplay stays in gameplay even
on a screen whose patterns all match. -/
theorem claim_C9_witness :
    ({ initCCMachine with current := CCState.gameplay } : CCMachine).current =
      CCState.gameplay ∧
    ((["enter your name:"].foldl
        (ccUpdate (fun _ _ => true))
        { initCCMachine with current := CCState.gameplay }).current =
      CCState.gameplay) :=
  ⟨rfl, claim_C9_gameplay_terminal (fun _ _ => true) _ _ rfl⟩

/-- C10: `decide` on the engine built by `create_default_engine`
always returns a command: the lowest-priority fallback rule's condition
is constantly true (and no rule's embedded condition or action raises —
a raising rule would merely be skipped by the loop), so the
`(none, "No matching rules")` result is unreachable. -/
theorem claim_C10_decide_total (ctx : DecisionContext) :
    ∃ cmd reason, decideDefault ctx = (some cmd, reason) := by
  unfold decideDefault engineDecide
  apply decideLoop_total
  refine ⟨ruleFallbackExploration, ?_, rfl, ("o", "Auto-explore (fallback)"), rfl⟩
  rw [sortRules_default]
  simp [List.mem_cons]

end Crawl

